import Mathlib

/-!
Shallow embedding of the schedule-editing, attendance-reconciliation and
report-dispatch logic of the `primefrontend` repository, with theorems
settling the specification claims about them.

Layout: all definitions first (one namespace per source component),
then the helper lemmas and claim theorems.
-/

namespace Attendance

/-- `AttendanceStatus` enumeration (declared in `api/attendance.api`,
used by `AttendanceModal.tsx`): PRESENT, MANUAL_PRESENT, ABSENT. -/
inductive AttendanceStatus where
  | PRESENT
  | MANUAL_PRESENT
  | ABSENT
deriving DecidableEq, Repr

/-- One existing attendance record returned by the session-attendances
query: the fields of it that `AttendanceModal` reads. -/
structure AttRecord where
  studentId : Nat
  status : AttendanceStatus
deriving DecidableEq, Repr

/-- One enrollment returned by the batch-enrollments query: the fields of
it that the reconciliation and bulk-save logic read. -/
structure Enrollment where
  id : Nat
  studentId : Nat
deriving DecidableEq, Repr

/-- The `studentAttendances` state: a JS object keyed by studentId,
modelled as an association list in key-insertion order. -/
abbrev StatusMap := List (Nat × AttendanceStatus)

/-- JS object property write `m[k] = v`: replace the value at an existing
key in place, otherwise append the new key. -/
def setKey : StatusMap → Nat → AttendanceStatus → StatusMap
  | [], k, v => [(k, v)]
  | p :: t, k, v => if p.1 = k then (k, v) :: t else p :: setKey t k v

/-- JS object property read `m[k]`: `none` models `undefined`. -/
def getKey (m : StatusMap) (k : Nat) : Option AttendanceStatus :=
  (m.find? (fun p => p.1 = k)).map (fun p => p.2)

/-- First branch of the initialization effect: build the map from the
existing attendance records (`initial[att.studentId] = att.status`). -/
def buildFromRecords (records : List AttRecord) : StatusMap :=
  records.foldl (fun m r => setKey m r.studentId r.status) []

/-- Second branch of the initialization effect: default every enrolled
student to ABSENT, guarded by `if (!initial[enrollment.studentId])`. -/
def buildDefaultAbsent (enrollments : List Enrollment) : StatusMap :=
  enrollments.foldl
    (fun m e =>
      if getKey m e.studentId = none then setKey m e.studentId .ABSENT else m)
    []

/-- The `useEffect` that initializes `studentAttendances`
(`AttendanceModal.tsx` lines 32-49): if the attendances response is
present (`attendancesData?.data`, truthy for any array, empty included)
build the map from its records; else if the enrollments response is
present default all enrolled students to ABSENT; else leave the previous
state untouched. -/
def initStudentAttendances (attendancesData : Option (List AttRecord))
    (enrollmentsData : Option (List Enrollment)) (prev : StatusMap) : StatusMap :=
  match attendancesData with
  | some records => buildFromRecords records
  | none =>
    match enrollmentsData with
    | some enrollments => buildDefaultAbsent enrollments
    | none => prev

/-- One remote `markAttendance` call as issued by the mutation. -/
structure MarkCall where
  studentId : Nat
  status : AttendanceStatus
  isManual : Bool
deriving DecidableEq, Repr

/-- `handleAttendanceChange` (lines 59-66): optimistically update the
local map (`{...prev, [studentId]: status}`) and issue one mark call. -/
def handleAttendanceChange (prev : StatusMap) (studentId : Nat)
    (status : AttendanceStatus) (isManual : Bool) : StatusMap × MarkCall :=
  (setKey prev studentId status, ⟨studentId, status, isManual⟩)

/-- The `isManual` argument each of the three per-student buttons passes
to `handleAttendanceChange` for its status (lines 129-179):
Present ↦ false, Manual ↦ true, Absent ↦ false. -/
def buttonIsManual : AttendanceStatus → Bool
  | .MANUAL_PRESENT => true
  | _ => false

/-- `handleBulkSave` (lines 68-75): nothing without an enrollments
response; otherwise one call per enrollment with the stored status
(`studentAttendances[id] || ABSENT`) and `isManual: false`. -/
def handleBulkSave (enrollmentsData : Option (List Enrollment))
    (m : StatusMap) : List MarkCall :=
  match enrollmentsData with
  | none => []
  | some enrollments =>
    enrollments.map (fun e =>
      ⟨e.studentId, (getKey m e.studentId).getD .ABSENT, false⟩)

/-- The invariant claimed of every remote mark call: `isManual` is true
exactly when the status sent is MANUAL_PRESENT. -/
def isManualOk (c : MarkCall) : Prop :=
  c.isManual = true ↔ c.status = .MANUAL_PRESENT

instance (c : MarkCall) : Decidable (isManualOk c) := by
  unfold isManualOk; infer_instance

end Attendance

namespace Schedule

/-- JS `"...".split(sep)` on the character list of the string: every
maximal separator-free run, the empty string splitting to `[""]`. -/
def splitOnChar (sep : Char) : List Char → List (List Char)
  | [] => [[]]
  | c :: rest =>
    let r := splitOnChar sep rest
    if c = sep then [] :: r
    else
      match r with
      | [] => [[c]]
      | h :: t => (c :: h) :: t

/-- JS `Number(...)` applied to one component of the split: the empty
string coerces to 0, a digit string to its value; `none` models NaN on
non-numeric input. -/
def natOfChars (cs : List Char) : Option Nat :=
  cs.foldl
    (fun acc c =>
      match acc with
      | none => none
      | some a => if c.isDigit then some (a * 10 + (c.toNat - 48)) else none)
    (some 0)

/-- The destructuring `const [h, m] = s.split(':').map(Number)` in
`calculateDuration` (`BatchCreation.tsx` lines 326-333): the first two
components of the split, `none` when a component is missing
(`undefined`) or NaN. -/
def parseHM (s : String) : Option (Nat × Nat) :=
  let parts := (splitOnChar ':' s.toList).map natOfChars
  match parts.get? 0, parts.get? 1 with
  | some (some h), some (some m) => some (h, m)
  | _, _ => none

/-- `calculateDuration` (`BatchCreation.tsx` lines 326-333): 0 when
either time string is empty, else `Math.max(0, endTotal - startTotal)`
on the parsed `hours*60+minutes` totals; `none` models the NaN result
on unparsable input. -/
def calculateDuration (startT endT : String) : Option Int :=
  if startT.isEmpty || endT.isEmpty then some 0
  else
    match parseHM startT, parseHM endT with
    | some (sh, sm), some (eh, em) =>
      some (max 0 ((eh * 60 + em : Int) - (sh * 60 + sm)))
    | _, _ => none

/-- `TimeSlot` (`BatchCreation.tsx` lines 8-13); `durationMinutes` is a
JS number, `none` modelling NaN. -/
structure TimeSlot where
  id : String
  startTime : String
  endTime : String
  durationMinutes : Option Int
deriving DecidableEq, Repr

/-- Which time field an edit targets. -/
inductive TimeField where
  | startTime
  | endTime
deriving DecidableEq, Repr

/-- `handleTimeChange` (`BatchCreation.tsx` lines 335-356) restricted to
the edited slot: set the field, then recompute `durationMinutes` from
`calculateDuration` only when the other time field is non-empty. -/
def handleTimeChange (slot : TimeSlot) (field : TimeField) (value : String) :
    TimeSlot :=
  match field with
  | .startTime =>
    let updated := { slot with startTime := value }
    if !updated.endTime.isEmpty then
      { updated with durationMinutes := calculateDuration value updated.endTime }
    else updated
  | .endTime =>
    let updated := { slot with endTime := value }
    if !updated.startTime.isEmpty then
      { updated with durationMinutes := calculateDuration updated.startTime value }
    else updated

/-- `handleDurationChange` (`BatchCreation.tsx` lines 358-365): store
`Math.max(0, value)` directly, touching nothing else. -/
def handleDurationChange (slot : TimeSlot) (value : Int) : TimeSlot :=
  { slot with durationMinutes := some (max 0 value) }

/-- The `schedule` value of the batch-creation form. -/
structure ScheduleValue where
  days : List String
  timeSlots : List TimeSlot
deriving DecidableEq, Repr

/-- The `'schedule.timeSlots'` form validator (`BatchCreation.tsx` line
54): an error exactly when the slot list is empty. -/
def timeSlotsValidator (slots : List TimeSlot) : Option String :=
  if slots.isEmpty then some "At least one time slot is required" else none

/-- The schedule part of the step-1 submission gate in `handleNext`
(`BatchCreation.tsx` lines 76-80): passes when the form validator on
`schedule.timeSlots` reports no error, the day list is non-empty and the
slot list is non-empty.  The validators on the non-schedule fields
(title, dates, capacity, ...) do not read the schedule and are outside
this embedding. -/
def validateForSubmission (s : ScheduleValue) : Bool :=
  !(timeSlotsValidator s.timeSlots).isSome
    && !s.days.isEmpty && !s.timeSlots.isEmpty

end Schedule

namespace Reports

/-- The nine report-type identifiers of the `reportTypes` list
(`Reports.tsx` lines 17-27). -/
def reportTypeIds : List String :=
  ["all-analysis", "student-current-batch", "students-without-batch",
   "batch-attendance", "student-attendance", "batches-by-faculty",
   "pending-payments", "monthwise-payments", "portfolio-status"]

/-- The filter values a report request may carry (`Reports.tsx`
`filters` state); each is a string from a form input, `none` when the
input was never set.  `fromDate`/`toDate` model the `from`/`to` keys. -/
structure ReportFilters where
  studentId : Option String := none
  batchId : Option String := none
  fromDate : Option String := none
  toDate : Option String := none
  facultyId : Option String := none
  month : Option String := none
  year : Option String := none
deriving DecidableEq, Repr

/-- JS truthiness of a possibly-missing filter string: present and
non-empty. -/
def truthy : Option String → Bool
  | none => false
  | some s => !s.isEmpty

/-- The string interpolated for a filter value (only ever used under a
`truthy` guard, mirroring the template literals). -/
def orEmpty : Option String → String
  | none => ""
  | some s => s

/-- The endpoint-construction and validation part of `fetchReport`
(`Reports.tsx` lines 29-68): the thrown error message or the endpoint
string the GET would target. -/
def buildRequest (reportType : String) (p : ReportFilters) :
    Except String String :=
  if reportType = "all-analysis" then
    .ok "/reports/all-analysis"
  else if reportType = "student-current-batch" then
    if !truthy p.studentId then .error "Student ID is required"
    else .ok ("/reports/student/" ++ orEmpty p.studentId ++ "/current-batch")
  else if reportType = "students-without-batch" then
    .ok "/reports/students-without-batch"
  else if reportType = "batch-attendance" then
    if !truthy p.batchId then .error "Batch ID is required"
    else .ok ("/reports/batch-attendance?batchId=" ++ orEmpty p.batchId
      ++ (if truthy p.fromDate then "&from=" ++ orEmpty p.fromDate else "")
      ++ (if truthy p.toDate then "&to=" ++ orEmpty p.toDate else ""))
  else if reportType = "student-attendance" then
    if !truthy p.studentId then .error "Student ID is required"
    else .ok ("/reports/student/" ++ orEmpty p.studentId ++ "/attendance"
      ++ (if truthy p.fromDate then "?from=" ++ orEmpty p.fromDate else "")
      ++ (if truthy p.toDate then
            (if truthy p.fromDate then "&" else "?") ++ "to="
              ++ orEmpty p.toDate
          else ""))
  else if reportType = "batches-by-faculty" then
    .ok ("/reports/batches-by-faculty"
      ++ (if truthy p.facultyId then "?facultyId=" ++ orEmpty p.facultyId
          else "")
      ++ (if truthy p.fromDate then
            (if truthy p.facultyId then "&" else "?") ++ "from="
              ++ orEmpty p.fromDate
          else "")
      ++ (if truthy p.toDate then
            (if truthy p.fromDate || truthy p.facultyId then "&" else "?")
              ++ "to=" ++ orEmpty p.toDate
          else ""))
  else if reportType = "pending-payments" then
    .ok "/reports/pending-payments"
  else if reportType = "monthwise-payments" then
    .ok ("/reports/monthwise-payments"
      ++ (if truthy p.month then "?month=" ++ orEmpty p.month else "")
      ++ (if truthy p.year then
            (if truthy p.month then "&" else "?") ++ "year=" ++ orEmpty p.year
          else ""))
  else if reportType = "portfolio-status" then
    .ok "/reports/portfolio-status"
  else
    .error "Invalid report type"

/-- A response payload abstracted by the features the `renderContent`
shape checks read: each field records whether the corresponding
JS presence/truthiness/array test on `data` holds. -/
structure Payload where
  paymentsPresent : Bool
  summaryTruthy : Bool
  summaryStudentsTruthy : Bool
  summaryBatchesTruthy : Bool
  studentsIsArray : Bool
  portfoliosIsArray : Bool
  studentTruthy : Bool
  currentBatchTruthy : Bool
  attendancesTruthy : Bool
  batchTruthy : Bool
  statisticsTruthy : Bool
  facultyStatisticsIsArray : Bool
  monthlyStatisticsIsArray : Bool
deriving DecidableEq, Repr

/-- The rendering templates `renderContent` can return. -/
inductive Template where
  | pendingPayments
  | allAnalysis
  | studentsWithoutBatch
  | portfolioStatus
  | studentCurrentBatch
  | studentAttendance
  | batchAttendance
  | batchesByFaculty
  | monthwisePayments
  | rawJson
deriving DecidableEq, Repr

/-- The dispatch structure of `renderContent` (`Reports.tsx` lines
126-758): the sequence of early-return `if` shape tests, in source
order, with the raw-JSON fallback. -/
def selectTemplate (d : Payload) : Template :=
  if d.paymentsPresent && d.summaryTruthy then .pendingPayments
  else if d.summaryTruthy && d.summaryStudentsTruthy && d.summaryBatchesTruthy
    then .allAnalysis
  else if d.studentsIsArray then .studentsWithoutBatch
  else if d.portfoliosIsArray then .portfolioStatus
  else if d.studentTruthy && d.currentBatchTruthy then .studentCurrentBatch
  else if d.studentTruthy && d.attendancesTruthy then .studentAttendance
  else if d.batchTruthy && d.statisticsTruthy then .batchAttendance
  else if d.facultyStatisticsIsArray then .batchesByFaculty
  else if d.monthlyStatisticsIsArray then .monthwisePayments
  else .rawJson

/-- The spec's reading of the same dispatch: an explicit ordered list of
(presence predicate, template) pairs. -/
def templateOrder : List ((Payload → Bool) × Template) :=
  [(fun d => d.paymentsPresent && d.summaryTruthy, .pendingPayments),
   (fun d => d.summaryTruthy && d.summaryStudentsTruthy
       && d.summaryBatchesTruthy, .allAnalysis),
   (fun d => d.studentsIsArray, .studentsWithoutBatch),
   (fun d => d.portfoliosIsArray, .portfolioStatus),
   (fun d => d.studentTruthy && d.currentBatchTruthy, .studentCurrentBatch),
   (fun d => d.studentTruthy && d.attendancesTruthy, .studentAttendance),
   (fun d => d.batchTruthy && d.statisticsTruthy, .batchAttendance),
   (fun d => d.facultyStatisticsIsArray, .batchesByFaculty),
   (fun d => d.monthlyStatisticsIsArray, .monthwisePayments)]

/-- Modelled from the spec: template choice as "the first pair in the
fixed order whose predicate holds, else the raw-JSON fallback". -/
def specSelectTemplate (d : Payload) : Template :=
  match templateOrder.find? (fun pr => pr.1 d) with
  | some pr => pr.2
  | none => .rawJson

end Reports

namespace BatchesList

/-- One time slot as the batches-list display reads it from a schedule
value (`BatchesList.tsx`); `durationMinutes` is a JS number. -/
structure DisplaySlot where
  startTime : String
  endTime : String
  durationMinutes : Int
deriving DecidableEq, Repr

/-- A schedule object as the display code probes it: `none` in a field
models "missing or not an array", which the code treats alike. -/
structure ScheduleObj where
  days : Option (List String)
  timeSlots : Option (List DisplaySlot)
deriving DecidableEq, Repr

/-- The dynamic value the `schedule` field of a batch may hold at the
read boundary: absent/falsy, a structured object, or a JSON string.
A string is embedded by its `JSON.parse` outcome: `jstr (some o)` is a
string parsing to the object `o`, `jstr none` a string that is invalid
JSON (or parses to a falsy value), which the `try`/`catch` and the
falsiness guard treat alike. -/
inductive SchedVal where
  | undef
  | obj (o : ScheduleObj)
  | jstr (parsed : Option ScheduleObj)
deriving DecidableEq, Repr

/-- The per-slot formatter inside `formatTimeSlots` (`BatchesList.tsx`
lines 140-147): `none` models the `null` of a slot missing a time;
`Math.floor(d / 60)` is floor division and `d % 60` the JS remainder. -/
def formatSlot (slot : DisplaySlot) : Option String :=
  if !slot.startTime.isEmpty && !slot.endTime.isEmpty then
    let duration :=
      if slot.durationMinutes ≠ 0 then
        " (" ++ toString (Int.fdiv slot.durationMinutes 60) ++ "h "
          ++ toString (Int.tmod slot.durationMinutes 60) ++ "m)"
      else ""
    some (slot.startTime ++ " - " ++ slot.endTime ++ duration)
  else none

/-- The object-level body of `formatTimeSlots` after normalization
(lines 136-151): map, drop nulls, join with ", ", and fall back to
"Not specified" on a missing slot list or an empty joined string. -/
def formatTimeSlotsObj (o : ScheduleObj) : String :=
  match o.timeSlots with
  | none => "Not specified"
  | some slots =>
    let formatted := String.intercalate ", " (slots.filterMap formatSlot)
    if formatted.isEmpty then "Not specified" else formatted

/-- `formatTimeSlots` (`BatchesList.tsx` lines 123-152), including the
string-vs-object dispatch and the `JSON.parse` `try`/`catch`. -/
def formatTimeSlots : SchedVal → String
  | .undef => "Not specified"
  | .jstr none => "Not specified"
  | .jstr (some o) => formatTimeSlotsObj o
  | .obj o => formatTimeSlotsObj o

/-- The object-level body of `formatDays` (lines 167-170). -/
def formatDaysObj (o : ScheduleObj) : String :=
  match o.days with
  | none => "Not specified"
  | some ds => String.intercalate ", " ds

/-- `formatDays` (`BatchesList.tsx` lines 154-171). -/
def formatDays : SchedVal → String
  | .undef => "Not specified"
  | .jstr none => "Not specified"
  | .jstr (some o) => formatDaysObj o
  | .obj o => formatDaysObj o

/-- `getScheduleObject` (`BatchesList.tsx` lines 173-185): normalize
either representation to the structured object, `none` on absence or a
parse failure. -/
def getScheduleObject : SchedVal → Option ScheduleObj
  | .undef => none
  | .jstr p => p
  | .obj o => some o

end BatchesList

namespace Attendance

theorem getKey_setKey (m : StatusMap) (k s : Nat) (v : AttendanceStatus) :
    getKey (setKey m k v) s = if k = s then some v else getKey m s := by
  induction m with
  | nil =>
    by_cases h : k = s <;> simp [setKey, getKey, List.find?, h]
  | cons p t ih =>
    by_cases hpk : p.1 = k
    · by_cases hks : k = s <;>
        simp [setKey, getKey, List.find?, hpk, hks, hpk ▸ hks]
    · have hstep : setKey (p :: t) k v = p :: setKey t k v := by
        simp [setKey, hpk]
      by_cases hps : p.1 = s
      · have hks : ¬ k = s := fun h => hpk (h ▸ hps)
        simp [hstep, getKey, List.find?, hps, hks]
      · simp only [hstep, getKey, List.find?] at *
        simp [hps, ih]

theorem getKey_buildFromRecords_aux (records : List AttRecord)
    (m : StatusMap) (s : Nat) :
    getKey (records.foldl (fun m r => setKey m r.studentId r.status) m) s =
      match records.reverse.find? (fun r => r.studentId = s) with
      | some r => some r.status
      | none => getKey m s := by
  induction records generalizing m with
  | nil => simp
  | cons r rs ih =>
    simp only [List.foldl_cons, List.reverse_cons, List.find?_append]
    rw [ih]
    cases hfind : rs.reverse.find? (fun r => r.studentId = s) with
    | some r' => simp [hfind]
    | none =>
      simp only [hfind, Option.none_orElse]
      rw [getKey_setKey]
      by_cases h : r.studentId = s <;> simp [List.find?, h]

/-- The status the first branch of the effect computes for student `s`:
the last record for `s` wins (later JS assignments overwrite earlier). -/
theorem getKey_buildFromRecords (records : List AttRecord) (s : Nat) :
    getKey (buildFromRecords records) s =
      (records.reverse.find? (fun r => r.studentId = s)).map
        (fun r => r.status) := by
  rw [buildFromRecords, getKey_buildFromRecords_aux]
  cases records.reverse.find? (fun r => r.studentId = s) <;>
    simp [getKey, List.find?]

theorem getKey_buildDefaultAbsent_aux (es : List Enrollment)
    (m : StatusMap) (s : Nat) :
    getKey (es.foldl
        (fun m e =>
          if getKey m e.studentId = none then setKey m e.studentId .ABSENT
          else m) m) s =
      if (getKey m s).isSome then getKey m s
      else if s ∈ es.map (fun e => e.studentId) then some .ABSENT
      else none := by
  induction es generalizing m with
  | nil =>
    cases h : getKey m s <;> simp [h]
  | cons e es ih =>
    simp only [List.foldl_cons]
    rw [ih]
    by_cases hme : getKey m e.studentId = none
    · simp only [hme, if_pos rfl, reduceIte, getKey_setKey]
      by_cases hse : e.studentId = s
      · subst hse
        simp [hme, getKey_setKey]
      · simp only [if_neg hse, getKey_setKey]
        cases h : getKey m s with
        | some v => simp [h]
        | none =>
          have : ¬ s = e.studentId := fun h' => hse h'.symm
          simp [h, List.mem_map, this]
    · simp only [if_neg hme, reduceIte]
      cases h : getKey m s with
      | some v => simp [h]
      | none =>
        have hne : ¬ s = e.studentId := by
          intro h'; rw [h'] at h; exact hme h
        simp [h, hne]

/-- The status the second branch of the effect computes for student `s`:
ABSENT exactly for the enrolled students. -/
theorem getKey_buildDefaultAbsent (es : List Enrollment) (s : Nat) :
    getKey (buildDefaultAbsent es) s =
      if s ∈ es.map (fun e => e.studentId) then some .ABSENT else none := by
  rw [buildDefaultAbsent, getKey_buildDefaultAbsent_aux]
  simp [getKey, List.find?]

end Attendance

/-- C10: when the session-attendances query returns a present but empty
record list, the reconciled map is the empty map; no enrolled student is
defaulted to ABSENT, because the roster-defaulting branch runs only when
the attendance response is absent entirely. -/
theorem empty_attendance_records_empty_map :
    ∀ (enrollmentsData : Option (List Attendance.Enrollment))
      (prev : Attendance.StatusMap),
      Attendance.initStudentAttendances (some []) enrollmentsData prev = [] :=
  fun _ _ => rfl

/-- C1 fails on the code: with roster `[s1, s2]` and existing records
`[{studentId: s1, status: PRESENT}]`, the reconciled map does not assign
ABSENT to `s2` — the records branch runs alone and leaves `s2` unmapped. -/
theorem attendance_merge_counterexample :
    ¬ (Attendance.getKey
        (Attendance.initStudentAttendances
          (some [⟨1, .PRESENT⟩]) (some [⟨10, 1⟩, ⟨11, 2⟩]) []) 2
        = some Attendance.AttendanceStatus.ABSENT) := by
  decide

/-- C1 (amended): when the attendance-records response is present, the
reconciled map assigns each recorded student its (last) record's status
and leaves every other student — enrolled or not — unmapped; the ABSENT
default for every enrolled student applies only when the records
response is absent entirely. -/
theorem attendance_merge_amended :
    (∀ (records : List Attendance.AttRecord)
        (enrollmentsData : Option (List Attendance.Enrollment))
        (prev : Attendance.StatusMap) (s : Nat),
        Attendance.getKey
            (Attendance.initStudentAttendances (some records)
              enrollmentsData prev) s
          = (records.reverse.find? (fun r => r.studentId = s)).map
              (fun r => r.status))
    ∧ (∀ (enrollments : List Attendance.Enrollment)
        (prev : Attendance.StatusMap) (s : Nat),
        Attendance.getKey
            (Attendance.initStudentAttendances none (some enrollments) prev) s
          = if s ∈ enrollments.map (fun e => e.studentId)
            then some Attendance.AttendanceStatus.ABSENT else none) := by
  constructor
  · intro records enr prev s
    exact Attendance.getKey_buildFromRecords records s
  · intro es prev s
    exact Attendance.getKey_buildDefaultAbsent es s

/-- C2 failing input demonstrated: after the Manual button stores
MANUAL_PRESENT for student 1, the bulk save re-sends that status with
`isManual: false`, violating the claimed invariant that `isManual` is
true exactly for MANUAL_PRESENT. -/
theorem bulk_save_isManual_bug :
    (Attendance.handleBulkSave (some [⟨10, 1⟩])
        (Attendance.handleAttendanceChange [] 1
          Attendance.AttendanceStatus.MANUAL_PRESENT
          (Attendance.buttonIsManual .MANUAL_PRESENT)).1)
      = [⟨1, Attendance.AttendanceStatus.MANUAL_PRESENT, false⟩]
    ∧ ¬ Attendance.isManualOk
        ⟨1, Attendance.AttendanceStatus.MANUAL_PRESENT, false⟩ := by
  exact ⟨rfl, by decide⟩

/-- C9: the bulk save issues exactly one mark call per enrolled student
(no diffing), sending each student's stored status or ABSENT when none
is stored, always with `isManual: false`. -/
theorem bulk_save_coverage (es : List Attendance.Enrollment)
    (m : Attendance.StatusMap) :
    (Attendance.handleBulkSave (some es) m).length = es.length
    ∧ (∀ e ∈ es,
        (⟨e.studentId, (Attendance.getKey m e.studentId).getD .ABSENT, false⟩
            : Attendance.MarkCall)
          ∈ Attendance.handleBulkSave (some es) m)
    ∧ (∀ c ∈ Attendance.handleBulkSave (some es) m,
        ∃ e ∈ es,
          c = ⟨e.studentId, (Attendance.getKey m e.studentId).getD .ABSENT,
                false⟩) := by
  refine ⟨?_, ?_, ?_⟩
  · simp [Attendance.handleBulkSave]
  · intro e he
    simp only [Attendance.handleBulkSave, List.mem_map]
    exact ⟨e, he, rfl⟩
  · intro c hc
    simp only [Attendance.handleBulkSave, List.mem_map] at hc
    obtain ⟨e, he, rfl⟩ := hc
    exact ⟨e, he, rfl⟩

/-- C9 witness: a never-modified enrolled student (id 2, no stored
status) is resubmitted as ABSENT by the bulk save. -/
theorem bulk_save_coverage_witness :
    (⟨2, Attendance.AttendanceStatus.ABSENT, false⟩ : Attendance.MarkCall)
      ∈ Attendance.handleBulkSave (some [⟨10, 1⟩, ⟨11, 2⟩])
          [(1, Attendance.AttendanceStatus.PRESENT)] :=
  (bulk_save_coverage [⟨10, 1⟩, ⟨11, 2⟩]
      [(1, Attendance.AttendanceStatus.PRESENT)]).2.1 ⟨11, 2⟩ (by decide)

/-- C3: for HH:MM start and end times the computed duration is
`max 0 (endMinutes - startMinutes)`; 09:00-11:30 gives 150 and
14:00-13:00 clamps to 0. -/
theorem duration_derivation :
    (∀ (s e : String) (sh sm eh em : Nat),
        s.isEmpty = false → e.isEmpty = false →
        Schedule.parseHM s = some (sh, sm) →
        Schedule.parseHM e = some (eh, em) →
        Schedule.calculateDuration s e
          = some (max 0 ((eh * 60 + em : Int) - (sh * 60 + sm))))
    ∧ Schedule.calculateDuration "09:00" "11:30" = some 150
    ∧ Schedule.calculateDuration "14:00" "13:00" = some 0 := by
  refine ⟨?_, by decide, by decide⟩
  intro s e sh sm eh em hs he hps hpe
  simp [Schedule.calculateDuration, hs, he, hps, hpe]

/-- C3 witness: the general rule instantiated at 09:00 and 11:30. -/
theorem duration_derivation_witness :
    Schedule.calculateDuration "09:00" "11:30"
      = some (max 0 ((11 * 60 + 30 : Int) - (9 * 60 + 0))) :=
  duration_derivation.1 "09:00" "11:30" 9 0 11 30 (by decide) (by decide)
    (by decide) (by decide)

/-- C4: directly setting the duration stores `max 0 v` and changes
nothing else; the next edit of either time field (with the other time
non-empty) recomputes the duration from the times, discarding the
manual value `v` (the result does not depend on `v`). -/
theorem manual_duration_override :
    (∀ (slot : Schedule.TimeSlot) (v : Int),
        Schedule.handleDurationChange slot v
          = ⟨slot.id, slot.startTime, slot.endTime, some (max 0 v)⟩)
    ∧ (∀ (slot : Schedule.TimeSlot) (v : Int) (value : String),
        slot.endTime.isEmpty = false →
        Schedule.handleTimeChange (Schedule.handleDurationChange slot v)
            Schedule.TimeField.startTime value
          = ⟨slot.id, value, slot.endTime,
              Schedule.calculateDuration value slot.endTime⟩)
    ∧ (∀ (slot : Schedule.TimeSlot) (v : Int) (value : String),
        slot.startTime.isEmpty = false →
        Schedule.handleTimeChange (Schedule.handleDurationChange slot v)
            Schedule.TimeField.endTime value
          = ⟨slot.id, slot.startTime, value,
              Schedule.calculateDuration slot.startTime value⟩) := by
  refine ⟨fun slot v => rfl, ?_, ?_⟩
  · intro slot v value h
    cases slot
    simp_all [Schedule.handleDurationChange, Schedule.handleTimeChange]
  · intro slot v value h
    cases slot
    simp_all [Schedule.handleDurationChange, Schedule.handleTimeChange]

/-- C4 witness: a slot computed as 09:00-11:30 (150), manually
overridden to 45, then start edited to 10:00: the duration is
recomputed from the times and 45 is discarded. -/
theorem manual_duration_override_witness :
    Schedule.handleTimeChange
        (Schedule.handleDurationChange
          ⟨"slot-1", "09:00", "11:30", some 150⟩ 45)
        Schedule.TimeField.startTime "10:00"
      = ⟨"slot-1", "10:00", "11:30",
          Schedule.calculateDuration "10:00" "11:30"⟩ :=
  manual_duration_override.2.1 ⟨"slot-1", "09:00", "11:30", some 150⟩ 45
    "10:00" (by decide)

/-- C5: missing mandatory filters fail with the claimed messages, an
unknown report type fails with "Invalid report type", and
pending-payments needs no mandatory filter. -/
theorem report_request_validation :
    Reports.buildRequest "student-attendance" {}
        = .error "Student ID is required"
    ∧ Reports.buildRequest "batch-attendance" {}
        = .error "Batch ID is required"
    ∧ (∀ (rt : String) (p : Reports.ReportFilters),
        rt ∉ Reports.reportTypeIds →
        Reports.buildRequest rt p = .error "Invalid report type")
    ∧ Reports.buildRequest "pending-payments" {}
        = .ok "/reports/pending-payments" := by
  refine ⟨rfl, rfl, ?_, rfl⟩
  intro rt p hrt
  simp only [Reports.reportTypeIds, List.mem_cons,
    List.not_mem_nil, or_false, not_or] at hrt
  obtain ⟨h1, h2, h3, h4, h5, h6, h7, h8, h9⟩ := hrt
  simp [Reports.buildRequest, h1, h2, h3, h4, h5, h6, h7, h8, h9]

/-- C5 witness: a report type outside the nine identifiers is rejected. -/
theorem report_request_validation_witness :
    Reports.buildRequest "bogus-report" {} = .error "Invalid report type" :=
  report_request_validation.2.2.1 "bogus-report" {} (by decide)

/-- C6: the rendering template is the first of the nine presence
predicates to hold, in source order, with the raw-JSON fallback; a
payload satisfying both the pending-payments and the all-analysis
predicates resolves to pending-payments. -/
theorem template_selection_precedence :
    (∀ d : Reports.Payload,
        Reports.selectTemplate d = Reports.specSelectTemplate d)
    ∧ (∀ d : Reports.Payload,
        (d.paymentsPresent && d.summaryTruthy) = true →
        (d.summaryTruthy && d.summaryStudentsTruthy
            && d.summaryBatchesTruthy) = true →
        Reports.selectTemplate d = Reports.Template.pendingPayments) := by
  constructor
  · intro d
    cases h1 : (d.paymentsPresent && d.summaryTruthy) <;>
    cases h2 : (d.summaryTruthy && d.summaryStudentsTruthy
        && d.summaryBatchesTruthy) <;>
    cases h3 : d.studentsIsArray <;>
    cases h4 : d.portfoliosIsArray <;>
    cases h5 : (d.studentTruthy && d.currentBatchTruthy) <;>
    cases h6 : (d.studentTruthy && d.attendancesTruthy) <;>
    cases h7 : (d.batchTruthy && d.statisticsTruthy) <;>
    cases h8 : d.facultyStatisticsIsArray <;>
    cases h9 : d.monthlyStatisticsIsArray <;>
      simp [Reports.selectTemplate, Reports.specSelectTemplate,
        Reports.templateOrder, List.find?, h1, h2, h3, h4, h5, h6, h7, h8, h9]
  · intro d h1 h2
    unfold Reports.selectTemplate
    simp [h1]

/-- C6 witness: a crafted payload satisfying both the pending-payments
and the all-analysis predicates resolves to pending-payments. -/
theorem template_selection_precedence_witness :
    Reports.selectTemplate
        ⟨true, true, true, true, false, false, false, false, false, false,
          false, false, false⟩
      = Reports.Template.pendingPayments :=
  template_selection_precedence.2
    ⟨true, true, true, true, false, false, false, false, false, false,
      false, false, false⟩ rfl rfl

/-- C7: the schedule submission gate fails on an empty day set whatever
the slots, fails on an empty slot list whatever the days, and passes
when both are non-empty — slot field completeness (an empty startTime,
say) is not checked at this layer. -/
theorem schedule_submission_gating :
    (∀ slots : List Schedule.TimeSlot,
        Schedule.validateForSubmission ⟨[], slots⟩ = false)
    ∧ (∀ days : List String,
        Schedule.validateForSubmission ⟨days, []⟩ = false)
    ∧ (∀ (days : List String) (slots : List Schedule.TimeSlot),
        days ≠ [] → slots ≠ [] →
        Schedule.validateForSubmission ⟨days, slots⟩ = true) := by
  refine ⟨?_, ?_, ?_⟩
  · intro slots
    simp [Schedule.validateForSubmission]
  · intro days
    simp [Schedule.validateForSubmission, Schedule.timeSlotsValidator]
  · intro days slots hd hs
    simp [Schedule.validateForSubmission, Schedule.timeSlotsValidator, hd, hs]

/-- C7 witness: one day and one slot whose time fields are still empty
pass the gate — slot completeness is indeed not checked here. -/
theorem schedule_submission_gating_witness :
    Schedule.validateForSubmission
        ⟨["Monday"], [⟨"slot-1", "", "", some 0⟩]⟩ = true :=
  schedule_submission_gating.2.2 ["Monday"] [⟨"slot-1", "", "", some 0⟩]
    (by decide) (by simp)

/-- C8: a schedule arriving as a JSON string that parses to the object
`o` is displayed exactly as the structured object `o` (time slots, days,
normalized object), and an invalid-JSON string yields the
"Not specified" / `none` outcome rather than an error. -/
theorem dual_representation_normalization :
    (∀ o : BatchesList.ScheduleObj,
        BatchesList.formatTimeSlots (.jstr (some o))
            = BatchesList.formatTimeSlots (.obj o)
        ∧ BatchesList.formatDays (.jstr (some o))
            = BatchesList.formatDays (.obj o)
        ∧ BatchesList.getScheduleObject (.jstr (some o))
            = BatchesList.getScheduleObject (.obj o))
    ∧ (BatchesList.formatTimeSlots (.jstr none) = "Not specified"
        ∧ BatchesList.formatDays (.jstr none) = "Not specified"
        ∧ BatchesList.getScheduleObject (.jstr none) = none) :=
  ⟨fun _ => ⟨rfl, rfl, rfl⟩, rfl, rfl, rfl⟩
